import Mathlib

/-!
Shallow embedding of wdantiparkd (src/wdantiparkd.c), covering the
activity monitor (checkForDiskActivity) and the anti-park control loop
(wdAntiParkRun).  Machine integers of the C program are modelled as
follows: `time_t` values and the `int` counters are `Int` (all values
that arise stay far below any overflow boundary, which is noted where
it matters), the `unsigned long` sector counters are `Nat`, and the
one computation whose 32-bit truncation is observable (the end-of-tick
sleep computation, lines 373-375) is modelled with an explicit
`% 2 ^ 32`.  C integer division by zero is a fault and is modelled by
`Option` (`none` = the program faults).
-/

namespace Wdantiparkd

/-- Configuration, from `struct wdAntiParkConfig` (lines 63-73 of
wdantiparkd.c).  The string fields `disk` and `tempFile` only name OS
resources and carry no control-relevant data, so they are omitted from
the model; `verbose` and `syncBeforeIdle` are C ints used as booleans. -/
structure WdAntiParkConfig where
  verbose : Bool
  interval : Int
  antiParkTimeout : Int
  antiParkTimeoutMax : Int
  parkedTimeout : Int
  syncBeforeIdle : Bool
  deriving Repr, DecidableEq

/-- `enum AntiParkState` (lines 75-80). -/
inductive AntiParkState where
  | AntiPark
  | Parked
  | Idle
  deriving Repr, DecidableEq

/-- The mutable process state of the loop `wdAntiParkRun` (lines
205-221) together with the two `static unsigned long` counters of
`checkForDiskActivity` (line 125), which are file-scope process state
re-baselined by the loop.  `antiParkTimeout` here is the local adaptive
timeout of `wdAntiParkRun` (line 212), distinct from the configured
base value. -/
structure LoopState where
  state : AntiParkState
  timeoutCountBegin : Int
  stateTimeBegin : Int
  antiParkStart : Int
  idleTime : Int
  lastSync : Int
  llc : Int
  antiParkTimeout : Int
  lastReadSectorCount : Nat
  lastWriteSectorCount : Nat
  deriving Repr, DecidableEq

/-- Result of one call to `checkForDiskActivity` (lines 123-171):
the success flag (return value 0 versus negative), the values held by
the two out-parameters after the call, and the two statics after the
call.  C statics are zero-initialized, so at process start both
`last...SectorCount` fields are 0. -/
structure DiskActivityResult where
  ok : Bool
  haveReadActivity : Bool
  haveWriteActivity : Bool
  lastReadSectorCount : Nat
  lastWriteSectorCount : Nat
  deriving Repr, DecidableEq

/-- Embeds `checkForDiskActivity` (lines 123-171).  `reading` is the
pair of cumulative sector counters parsed from the device stat file,
or `none` when the open at line 136 or either parse at lines 149/158
fails.  On every failure path the function returns before lines
164-168, so the out-parameters are NOT written (they keep whatever
values `prevR`/`prevW` the caller's variables already held) and the
statics are unchanged.  On success the flags are plain inequality
against the statics and the statics are replaced by the new reading. -/
def checkForDiskActivity (reading : Option (Nat × Nat))
    (lastRead lastWrite : Nat) (prevR prevW : Bool) : DiskActivityResult :=
  match reading with
  | none => ⟨false, prevR, prevW, lastRead, lastWrite⟩
  | some (r, w) => ⟨true, r != lastRead, w != lastWrite, r, w⟩

/-- Embeds the re-baselining calls `checkForDiskActivity(config->disk,
NULL,NULL)` (lines 277 and 326): with NULL out-parameters only the
statics are updated, and only when the read succeeds. -/
def rebaselineActivity (s : LoopState) (reading : Option (Nat × Nat)) :
    LoopState :=
  match reading with
  | none => s
  | some (r, w) =>
    { s with lastReadSectorCount := r, lastWriteSectorCount := w }

/-- Externally observable actions of one loop iteration: whether the
touch file was opened and written (lines 251-257, only reachable in
the AntiPark case) and whether the iteration ended in `continue`
(lines 302, 335, 364), skipping the end-of-tick sleep. -/
structure TickResult where
  touched : Bool
  skipSleep : Bool
  deriving Repr, DecidableEq

/-- The `switch(state)` body of one loop iteration (lines 243-365),
after the activity flags have been obtained.  All `time(NULL)` calls
of the iteration are modelled as the single instant `now` (the extra
second consumed by the `sleep(1)` calls inside the two sync branches
only delays the following re-reads of the clock; no claim depends on
that skew).  `reading2` feeds the re-baselining second call to
`checkForDiskActivity` made inside a transition branch, when one
occurs. -/
def stepState (cfg : WdAntiParkConfig) (s : LoopState) (now : Int)
    (haveReadActivity haveWriteActivity : Bool)
    (reading2 : Option (Nat × Nat)) : LoopState × TickResult :=
  match s.state with
  | .AntiPark =>
    -- line 246: read activity resets the timeout counter
    let s := if haveReadActivity then { s with timeoutCountBegin := now } else s
    -- lines 251-257: touch file open/write/close (recorded in TickResult)
    -- lines 259-262: forced sync every 30 seconds
    let s := if now - s.lastSync > 30 then { s with lastSync := now } else s
    -- line 264: timeout check against the adaptive timeout
    if now - s.timeoutCountBegin > s.antiParkTimeout then
      let s := { s with timeoutCountBegin := now, stateTimeBegin := now,
                        state := .Parked }
      -- lines 273-280: sync, pause, re-baseline stats, increment llc
      let s := rebaselineActivity s reading2
      ({ s with llc := s.llc + 1 }, ⟨true, false⟩)
    else
      (s, ⟨true, false⟩)
  | .Parked =>
    if haveReadActivity || haveWriteActivity then
      -- lines 286-288: double the adaptive timeout, clamped to the max
      let t := s.antiParkTimeout * 2
      let t := if t > cfg.antiParkTimeoutMax then cfg.antiParkTimeoutMax else t
      let s := { s with antiParkTimeout := t }
      -- lines 290-297: idleTime accumulation happens inside the
      -- if(config->verbose) block only
      let s := if cfg.verbose then
          { s with idleTime := s.idleTime + (now - s.stateTimeBegin) }
        else s
      let s := { s with timeoutCountBegin := now, stateTimeBegin := now,
                        state := .AntiPark }
      (s, ⟨false, true⟩)
    else
      if now - s.timeoutCountBegin > cfg.parkedTimeout then
        -- lines 305-310: idleTime accumulation again verbose-only
        let s := if cfg.verbose then
            { s with idleTime := s.idleTime + (now - s.stateTimeBegin) }
          else s
        let s := { s with timeoutCountBegin := now, stateTimeBegin := now,
                          state := .Idle }
        -- lines 317-329: optional sync before idle
        let s := if cfg.syncBeforeIdle then
            let s := rebaselineActivity s reading2
            { s with llc := s.llc + 1 }
          else s
        -- lines 332-334: timers and state set a second time
        let s := { s with timeoutCountBegin := now, stateTimeBegin := now,
                          state := .Idle }
        (s, ⟨false, true⟩)
      else
        (s, ⟨false, false⟩)
  | .Idle =>
    if !haveReadActivity && !haveWriteActivity then
      (s, ⟨false, false⟩)
    else
      -- line 342: full reset of the adaptive timeout to the base
      let s := { s with antiParkTimeout := cfg.antiParkTimeout }
      -- lines 344-358: idleTime accumulation inside if(config->verbose)
      let s := if cfg.verbose then
          { s with idleTime := s.idleTime + (now - s.stateTimeBegin) }
        else s
      let s := { s with timeoutCountBegin := now, stateTimeBegin := now,
                        state := .AntiPark }
      (s, ⟨false, true⟩)

/-- Per-iteration inputs of the environment: the instant of the tick,
the device reading for the activity check at line 241, the device
reading for a re-baseline call inside a transition branch, and the
indeterminate initial contents of the two uninitialized locals
`haveReadActivity`, `haveWriteActivity` declared at line 235 (used
only when the device read fails, since the return code at line 241 is
ignored and the out-parameters are then never assigned). -/
structure TickInput where
  now : Int
  reading : Option (Nat × Nat)
  reading2 : Option (Nat × Nat)
  junkR : Bool
  junkW : Bool
  deriving Repr, DecidableEq

/-- One full iteration of the while loop (lines 234-376): obtain the
activity flags via `checkForDiskActivity`, then run the state switch. -/
def wdAntiParkTick (cfg : WdAntiParkConfig) (s : LoopState)
    (i : TickInput) : LoopState × TickResult :=
  let res := checkForDiskActivity i.reading
      s.lastReadSectorCount s.lastWriteSectorCount i.junkR i.junkW
  let s := { s with lastReadSectorCount := res.lastReadSectorCount,
                    lastWriteSectorCount := res.lastWriteSectorCount }
  stepState cfg s i.now res.haveReadActivity res.haveWriteActivity i.reading2

/-- The state set up by `wdAntiParkRun` before the loop (lines
207-221), at start instant `t0`; the statics of `checkForDiskActivity`
are zero-initialized at process start. -/
def initState (cfg : WdAntiParkConfig) (t0 : Int) : LoopState where
  state := .AntiPark
  timeoutCountBegin := t0
  stateTimeBegin := t0
  antiParkStart := t0
  idleTime := 0
  lastSync := t0
  llc := 0
  antiParkTimeout := cfg.antiParkTimeout
  lastReadSectorCount := 0
  lastWriteSectorCount := 0

/-- Runs the loop of `wdAntiParkRun` from state `s` over a finite list
of per-tick environment inputs, returning the final controller state. -/
def wdAntiParkRun (cfg : WdAntiParkConfig) (s : LoopState)
    (inputs : List TickInput) : LoopState :=
  inputs.foldl (fun s i => (wdAntiParkTick cfg s i).1) s

/-- Embeds the idle-percentage expression `idleTime * 100 / uptime` of
the IDLE status report (line 355).  The C source contains no guard on
`uptime`; integer division by zero is a fault, modelled as `none`.
For a positive divisor, C division of these non-negative quantities
truncates toward zero, which is floor division, i.e. `Nat` division. -/
def idlePercent (idleTime uptime : Nat) : Option Nat :=
  if uptime = 0 then none else some (idleTime * 100 / uptime)

/-- Embeds the end-of-tick sleep computation (lines 373-375).
`sleepFor = (config->interval * 1000000) - loopMicros` is computed
with the first product as a 32-bit signed int (it wraps for interval
greater than 2147, which two's-complement arithmetic makes congruent
to `interval * 1000000` mod `2 ^ 32`); `sleepFor` is then cast to the
32-bit unsigned `useconds_t` both for the guard comparison and as the
argument of `usleep`.  Returns the number of microseconds slept, or
`none` when the guard is false and no sleep happens. -/
def tickSleepMicros (interval : Int) (loopMicros : Int) : Option Int :=
  let m : Int := 2 ^ 32
  let arg := (interval * 1000000 - loopMicros) % m
  if arg < (interval * 1000000) % m then some arg else none

/-- Microseconds actually spent sleeping at the end of a tick:
skipping the `usleep` call sleeps for 0. -/
def sleptMicros (r : Option Int) : Int :=
  match r with
  | none => 0
  | some k => k

end Wdantiparkd

namespace Wdantiparkd

/-- The default configuration baked into main (lines 414-423): not
verbose, 7 second interval, 60 second anti-park timeout, 300 second
maximum, 300 second parked timeout, no sync before idle. -/
def cfgDefault : WdAntiParkConfig :=
  ⟨false, 7, 60, 300, 300, false⟩

/-- A controller state with the given machine state, timer values and
adaptive timeout, all remaining fields zero; used to examine single
steps of the switch. -/
def mkState (st : AntiParkState) (tcb stb t : Int) : LoopState :=
  ⟨st, tcb, stb, 0, 0, 0, 0, t, 0, 0⟩

/-- Environment inputs for ticks at one-second spacing, at instants
a+1, a+2, ..., b, with the device counters frozen at (0, 0) so that no
activity is ever observed relative to the zero-initialized baseline. -/
def noActInputs (a b : Nat) : List TickInput :=
  (List.range (b - a)).map
    (fun k => ⟨(a + k + 1 : Int), some (0, 0), some (0, 0), false, false⟩)

/-- How one step of the switch changes the adaptive timeout: a PARKED
tick with observed activity doubles it clamped to the configured
maximum (lines 286-288), an IDLE tick with observed activity resets it
to the configured base (line 342), and every other tick leaves it
unchanged. -/
lemma stepState_antiParkTimeout_eq (cfg : WdAntiParkConfig)
    (s : LoopState) (now : Int) (hr hw : Bool)
    (r2 : Option (Nat × Nat)) :
    (stepState cfg s now hr hw r2).1.antiParkTimeout =
      if s.state = .Parked ∧ (hr || hw) = true then
        (if s.antiParkTimeout * 2 > cfg.antiParkTimeoutMax then
          cfg.antiParkTimeoutMax else s.antiParkTimeout * 2)
      else if s.state = .Idle ∧ (hr || hw) = true then cfg.antiParkTimeout
      else s.antiParkTimeout := by
  obtain ⟨st, tcb, stb, aps, idl, ls, lc, apt, lr, lw⟩ := s
  cases st <;> cases hr <;> cases hw <;>
    simp [stepState, rebaselineActivity] <;> split_ifs <;>
    first
      | rfl
      | (cases r2 with
          | none => rfl
          | some p => cases p; rfl)

/-- The full tick changes the adaptive timeout exactly like the switch
does on the flags produced by the activity check; the statics update
beforehand does not touch it. -/
lemma wdAntiParkTick_antiParkTimeout_eq (cfg : WdAntiParkConfig)
    (s : LoopState) (i : TickInput) :
    (wdAntiParkTick cfg s i).1.antiParkTimeout =
      (stepState cfg
        { s with
            lastReadSectorCount :=
              (checkForDiskActivity i.reading s.lastReadSectorCount
                s.lastWriteSectorCount i.junkR i.junkW).lastReadSectorCount
            lastWriteSectorCount :=
              (checkForDiskActivity i.reading s.lastReadSectorCount
                s.lastWriteSectorCount i.junkR i.junkW).lastWriteSectorCount }
        i.now
        (checkForDiskActivity i.reading s.lastReadSectorCount
          s.lastWriteSectorCount i.junkR i.junkW).haveReadActivity
        (checkForDiskActivity i.reading s.lastReadSectorCount
          s.lastWriteSectorCount i.junkR i.junkW).haveWriteActivity
        i.reading2).1.antiParkTimeout := rfl

/-- The two-sided bound on the adaptive timeout that one tick
preserves, for any configuration with non-negative base and maximum. -/
lemma tick_timeout_bounds (cfg : WdAntiParkConfig)
    (hb : 0 ≤ cfg.antiParkTimeout) (hM : 0 ≤ cfg.antiParkTimeoutMax)
    (s : LoopState) (i : TickInput)
    (h1 : min cfg.antiParkTimeout cfg.antiParkTimeoutMax ≤ s.antiParkTimeout)
    (h2 : s.antiParkTimeout ≤ max cfg.antiParkTimeout cfg.antiParkTimeoutMax) :
    min cfg.antiParkTimeout cfg.antiParkTimeoutMax ≤
        (wdAntiParkTick cfg s i).1.antiParkTimeout ∧
      (wdAntiParkTick cfg s i).1.antiParkTimeout ≤
        max cfg.antiParkTimeout cfg.antiParkTimeoutMax := by
  rw [wdAntiParkTick_antiParkTimeout_eq, stepState_antiParkTimeout_eq]
  dsimp only
  split_ifs <;> constructor <;> omega

/-- The two-sided bound is preserved along any run of the loop. -/
lemma run_timeout_bounds (cfg : WdAntiParkConfig)
    (hb : 0 ≤ cfg.antiParkTimeout) (hM : 0 ≤ cfg.antiParkTimeoutMax)
    (inputs : List TickInput) (s : LoopState)
    (h1 : min cfg.antiParkTimeout cfg.antiParkTimeoutMax ≤ s.antiParkTimeout)
    (h2 : s.antiParkTimeout ≤ max cfg.antiParkTimeout cfg.antiParkTimeoutMax) :
    min cfg.antiParkTimeout cfg.antiParkTimeoutMax ≤
        (wdAntiParkRun cfg s inputs).antiParkTimeout ∧
      (wdAntiParkRun cfg s inputs).antiParkTimeout ≤
        max cfg.antiParkTimeout cfg.antiParkTimeoutMax := by
  induction inputs generalizing s with
  | nil => exact ⟨h1, h2⟩
  | cons i rest ih =>
    have h := tick_timeout_bounds cfg hb hM s i h1 h2
    exact ih _ h.1 h.2

end Wdantiparkd

namespace Wdantiparkd

/-- C1 counterexample: with antiParkTimeout = 60 and
antiParkTimeoutMax = 30 (both individually within the validated 0-3600
range) the adaptive timeout after one no-activity tick is 60, which
does not lie in the closed interval from 60 down to 30 — the claimed
interval is empty, so the claim fails for such configurations. -/
theorem c1_counterexample :
    ¬ ((⟨false, 7, 60, 30, 300, false⟩ : WdAntiParkConfig).antiParkTimeout ≤
          (wdAntiParkRun ⟨false, 7, 60, 30, 300, false⟩
            (initState ⟨false, 7, 60, 30, 300, false⟩ 0)
            [⟨1, some (0, 0), none, false, false⟩]).antiParkTimeout ∧
        (wdAntiParkRun ⟨false, 7, 60, 30, 300, false⟩
            (initState ⟨false, 7, 60, 30, 300, false⟩ 0)
            [⟨1, some (0, 0), none, false, false⟩]).antiParkTimeout ≤
          (⟨false, 7, 60, 30, 300, false⟩ : WdAntiParkConfig).antiParkTimeoutMax) := by
  decide

/-- C1 (amended): for every configuration with non-negative base and
maximum timeout (the CLI validates each to 0-3600 independently) and
every sequence of environment inputs, the adaptive timeout after the
run stays within the closed interval from min(antiParkTimeout,
antiParkTimeoutMax) to max(antiParkTimeout, antiParkTimeoutMax); when
the base does not exceed the maximum this is exactly the claimed
interval. -/
theorem c1_timeout_within_minmax (cfg : WdAntiParkConfig) (t0 : Int)
    (inputs : List TickInput)
    (hb : 0 ≤ cfg.antiParkTimeout) (hM : 0 ≤ cfg.antiParkTimeoutMax) :
    min cfg.antiParkTimeout cfg.antiParkTimeoutMax ≤
        (wdAntiParkRun cfg (initState cfg t0) inputs).antiParkTimeout ∧
      (wdAntiParkRun cfg (initState cfg t0) inputs).antiParkTimeout ≤
        max cfg.antiParkTimeout cfg.antiParkTimeoutMax := by
  refine run_timeout_bounds cfg hb hM inputs (initState cfg t0) ?_ ?_ <;>
    simp [initState]

/-- C1 witness: the amended bound evaluated on a concrete inverted
configuration (base 60, maximum 30) and a one-tick run. -/
theorem c1_witness :
    min (60 : Int) 30 ≤
        (wdAntiParkRun ⟨false, 7, 60, 30, 300, false⟩
          (initState ⟨false, 7, 60, 30, 300, false⟩ 0)
          [⟨1, some (0, 0), none, false, false⟩]).antiParkTimeout ∧
      (wdAntiParkRun ⟨false, 7, 60, 30, 300, false⟩
          (initState ⟨false, 7, 60, 30, 300, false⟩ 0)
          [⟨1, some (0, 0), none, false, false⟩]).antiParkTimeout ≤
        max (60 : Int) 30 :=
  c1_timeout_within_minmax ⟨false, 7, 60, 30, 300, false⟩ 0
    [⟨1, some (0, 0), none, false, false⟩] (by decide) (by decide)

/-- The six-tick environment trace that drives the default
configuration into PARKED and interrupts it three times in a row:
timeout expiries at instants 61, 183 and 425, interruptions (a fresh
counter value) at instants 62, 184 and 426. -/
def threeInterruptions : List TickInput :=
  [⟨61, some (0, 0), some (0, 0), false, false⟩,
   ⟨62, some (1, 0), none, false, false⟩,
   ⟨183, some (1, 0), some (1, 0), false, false⟩,
   ⟨184, some (2, 0), none, false, false⟩,
   ⟨425, some (2, 0), some (2, 0), false, false⟩,
   ⟨426, some (3, 0), none, false, false⟩]

/-- C2: the adaptive timeout update rule.  It starts at the configured
base; a PARKED tick with observed read or write activity doubles it
clamped to the configured maximum; an IDLE tick with observed activity
resets it to the base; every other tick leaves it unchanged.  On the
default configuration (base 60, maximum 300), three consecutive PARKED
interruptions produce the timeout values 120, 240 and 300, with the
controller back in ANTI-PARK after each interruption. -/
theorem c2_adaptive_timeout_rule :
    (∀ (cfg : WdAntiParkConfig) (s : LoopState) (now : Int) (hr hw : Bool)
        (r2 : Option (Nat × Nat)),
      (stepState cfg s now hr hw r2).1.antiParkTimeout =
        if s.state = .Parked ∧ (hr || hw) = true then
          (if s.antiParkTimeout * 2 > cfg.antiParkTimeoutMax then
            cfg.antiParkTimeoutMax else s.antiParkTimeout * 2)
        else if s.state = .Idle ∧ (hr || hw) = true then cfg.antiParkTimeout
        else s.antiParkTimeout) ∧
    (∀ (cfg : WdAntiParkConfig) (t0 : Int),
      (initState cfg t0).antiParkTimeout = cfg.antiParkTimeout) ∧
    (wdAntiParkRun cfgDefault (initState cfgDefault 0)
        (threeInterruptions.take 2)).antiParkTimeout = 120 ∧
    (wdAntiParkRun cfgDefault (initState cfgDefault 0)
        (threeInterruptions.take 2)).state = .AntiPark ∧
    (wdAntiParkRun cfgDefault (initState cfgDefault 0)
        (threeInterruptions.take 4)).antiParkTimeout = 240 ∧
    (wdAntiParkRun cfgDefault (initState cfgDefault 0)
        (threeInterruptions.take 4)).state = .AntiPark ∧
    (wdAntiParkRun cfgDefault (initState cfgDefault 0)
        threeInterruptions).antiParkTimeout = 300 ∧
    (wdAntiParkRun cfgDefault (initState cfgDefault 0)
        threeInterruptions).state = .AntiPark :=
  ⟨fun cfg s now hr hw r2 => stepState_antiParkTimeout_eq cfg s now hr hw r2,
   fun _ _ => rfl,
   by decide, by decide, by decide, by decide, by decide, by decide⟩

end Wdantiparkd

namespace Wdantiparkd

/-- C3 counterexample: at process start the statics are 0, so the very
first successful poll with device counters (5, 7) reports activity on
both axes, contradicting the claim that the first call only
establishes a baseline and reports none, whatever the counters are. -/
theorem c3_counterexample :
    (checkForDiskActivity (some (5, 7)) 0 0 false false).haveReadActivity
        = true ∧
      (checkForDiskActivity (some (5, 7)) 0 0 false false).haveWriteActivity
        = true := by
  decide

/-- C3 (amended): the first successful poll compares the observed
counters against the zero-initialized statics, so it reports activity
on an axis exactly when that cumulative counter is non-zero; only a
device whose counters both read 0 gets a silent first poll.  The
observed reading then becomes the stored baseline. -/
theorem c3_first_poll_compares_to_zero (r w : Nat) (jr jw : Bool) :
    checkForDiskActivity (some (r, w)) 0 0 jr jw =
      ⟨true, r != 0, w != 0, r, w⟩ := rfl

/-- C4: on a failed device read, the activity flags the state machine
consumes are whatever the two uninitialized locals of line 235 already
held, because checkForDiskActivity returns on its error paths before
assigning its out-parameters and wdAntiParkRun ignores its return
value.  With indeterminate contents true the tick is treated as an
activity tick, not a no-activity tick, refuting the claim; the loop
does continue either way. -/
theorem c4_error_leaves_flags_indeterminate :
    (checkForDiskActivity none 0 0 true true).haveReadActivity = true ∧
      (checkForDiskActivity none 0 0 true true).haveWriteActivity = true ∧
      (checkForDiskActivity none 0 0 false false).haveReadActivity = false ∧
      (wdAntiParkTick cfgDefault
          (mkState .Parked 0 0 60) ⟨1, none, none, true, false⟩).1.state
        = .AntiPark := by
  decide

/-- Controller states that agree on every component except the
accumulated idle time. -/
def agreesExceptIdleTime (s t : LoopState) : Prop :=
  s.state = t.state ∧
  s.timeoutCountBegin = t.timeoutCountBegin ∧
  s.stateTimeBegin = t.stateTimeBegin ∧
  s.antiParkStart = t.antiParkStart ∧
  s.lastSync = t.lastSync ∧
  s.llc = t.llc ∧
  s.antiParkTimeout = t.antiParkTimeout ∧
  s.lastReadSectorCount = t.lastReadSectorCount ∧
  s.lastWriteSectorCount = t.lastWriteSectorCount

/-- One tick preserves agreement-except-idle-time between two runs
whose configurations differ only in the verbose flag: every branch
condition and every assignment other than the idleTime accumulations
(which sit inside the verbose blocks) is independent of verbose. -/
lemma tick_verbose_agree (cfg : WdAntiParkConfig) (b1 b2 : Bool)
    (s t : LoopState) (i : TickInput) (h : agreesExceptIdleTime s t) :
    agreesExceptIdleTime
      (wdAntiParkTick { cfg with verbose := b1 } s i).1
      (wdAntiParkTick { cfg with verbose := b2 } t i).1 := by
  obtain ⟨st, tcb, stb, aps, i1, ls, lc, apt, lr, lw⟩ := s
  obtain ⟨st2, tcb2, stb2, aps2, i2, ls2, lc2, apt2, lr2, lw2⟩ := t
  obtain ⟨h1, h2, h3, h4, h5, h6, h7, h8, h9⟩ := h
  dsimp only at h1 h2 h3 h4 h5 h6 h7 h8 h9
  subst h1; subst h2; subst h3; subst h4; subst h5
  subst h6; subst h7; subst h8; subst h9
  obtain ⟨now, rd, rd2, jR, jW⟩ := i
  rcases rd with _ | ⟨r, w⟩ <;> rcases rd2 with _ | ⟨r2, w2⟩ <;>
    cases st <;>
    simp [wdAntiParkTick, stepState, checkForDiskActivity,
      rebaselineActivity, agreesExceptIdleTime] <;>
    split_ifs <;> simp_all

/-- Agreement-except-idle-time is preserved along any run. -/
lemma run_verbose_agree (cfg : WdAntiParkConfig) (b1 b2 : Bool)
    (inputs : List TickInput) (s t : LoopState)
    (h : agreesExceptIdleTime s t) :
    agreesExceptIdleTime
      (wdAntiParkRun { cfg with verbose := b1 } s inputs)
      (wdAntiParkRun { cfg with verbose := b2 } t inputs) := by
  induction inputs generalizing s t with
  | nil => exact h
  | cons i rest ih => exact ih _ _ (tick_verbose_agree cfg b1 b2 s t i h)

/-- The two-tick trace that reaches PARKED at instant 61 and
interrupts it with a write at instant 62. -/
def parkInterruptTrace : List TickInput :=
  [⟨61, some (0, 0), some (0, 0), false, false⟩,
   ⟨62, some (1, 0), none, false, false⟩]

/-- C5 counterexample: on the same two-tick trace, the run with
verbose set accumulates one second of idle time at the PARKED
interruption, while the run differing only in verbose keeps
accumulatedIdleTime at 0 — the controller states are not identical. -/
theorem c5_counterexample :
    (wdAntiParkRun ⟨true, 7, 60, 300, 300, false⟩
        (initState ⟨true, 7, 60, 300, 300, false⟩ 0)
        parkInterruptTrace).idleTime = 1 ∧
      (wdAntiParkRun ⟨false, 7, 60, 300, 300, false⟩
        (initState ⟨false, 7, 60, 300, 300, false⟩ 0)
        parkInterruptTrace).idleTime = 0 := by
  decide

/-- C5 (amended): two runs on configurations differing only in the
verbose flag, over the same inputs, evolve identical currentState,
adaptive timeout, both timers, loadCycleEstimate and activity
baselines; accumulatedIdleTime is excluded, since the code adds to it
only inside verbose-guarded blocks (and reads it only there). -/
theorem c5_verbose_only_affects_idleTime (cfg : WdAntiParkConfig)
    (t0 : Int) (inputs : List TickInput) :
    agreesExceptIdleTime
      (wdAntiParkRun { cfg with verbose := true }
        (initState { cfg with verbose := true } t0) inputs)
      (wdAntiParkRun { cfg with verbose := false }
        (initState { cfg with verbose := false } t0) inputs) := by
  refine run_verbose_agree cfg true false inputs _ _ ?_
  simp [initState, agreesExceptIdleTime]

/-- C6: the idle-percentage expression of the IDLE report.  At uptime
0 the unguarded integer division faults (the C source divides by
uptime with no zero check), and for positive uptime the reported value
is the floor of 100 times idle time over uptime. -/
theorem c6_idle_percent_division_unguarded :
    idlePercent 5 0 = none ∧
      idlePercent 5 7 = some 71 ∧
      idlePercent 300 400 = some 75 := by
  decide

end Wdantiparkd

namespace Wdantiparkd

/-- C7 counterexample: an ANTI-PARK tick with write-only activity at
instant 61, against a timeout window started at 0 with adaptive
timeout 60, fires the ANTI-PARK to PARKED transition, which resets
timeoutCountBegin to 61 — the tick does not leave it unchanged. -/
theorem c7_counterexample :
    (stepState cfgDefault (mkState .AntiPark 0 0 60) 61 false true
          none).1.timeoutCountBegin ≠
      (mkState .AntiPark 0 0 60).timeoutCountBegin := by
  decide

/-- C7 (amended): on every ANTI-PARK tick, read activity (alone or
with write activity) leaves timeoutCountBegin equal to the current
instant, and a tick without read activity (in particular write-only
activity) leaves timeoutCountBegin unchanged provided the tick does
not fire the timeout transition; on a transition tick the timer is
reset to now by the transition itself. -/
theorem c7_read_resets_timeout_timer (cfg : WdAntiParkConfig)
    (s : LoopState) (now : Int) (hw : Bool) (r2 : Option (Nat × Nat))
    (hstate : s.state = .AntiPark) :
    (stepState cfg s now true hw r2).1.timeoutCountBegin = now ∧
      (¬ now - s.timeoutCountBegin > s.antiParkTimeout →
        (stepState cfg s now false hw r2).1.timeoutCountBegin =
          s.timeoutCountBegin) := by
  obtain ⟨st, tcb, stb, aps, i1, ls, lc, apt, lr, lw⟩ := s
  dsimp only at hstate
  subst hstate
  constructor
  · rcases r2 with _ | ⟨a, b⟩ <;>
      simp [stepState, rebaselineActivity] <;> split_ifs <;> rfl
  · intro hno
    dsimp only at hno
    rcases r2 with _ | ⟨a, b⟩ <;>
      simp [stepState, rebaselineActivity] <;> split_ifs <;> rfl

/-- C7 witness: at instant 5 with window start 0 and timeout 60 the
transition does not fire; a read tick sets the timer to 5 and a
write-only tick leaves it at 0. -/
theorem c7_witness :
    (stepState cfgDefault (mkState .AntiPark 0 0 60) 5 true true
        none).1.timeoutCountBegin = 5 ∧
      (stepState cfgDefault (mkState .AntiPark 0 0 60) 5 false true
        none).1.timeoutCountBegin = 0 :=
  ⟨(c7_read_resets_timeout_timer cfgDefault (mkState .AntiPark 0 0 60) 5
      true none rfl).1,
   (c7_read_resets_timeout_timer cfgDefault (mkState .AntiPark 0 0 60) 5
      true none rfl).2 (by decide)⟩

set_option maxRecDepth 8000 in
/-- C8: starting fresh at instant 0 on the default configuration
(antiParkTimeout 60, parkedTimeout 300) with ticks every simulated
second and the device counters frozen so no activity is ever observed:
after 60 ticks the controller is still in ANTI-PARK, the 61st tick
(elapsed 61 > 60) switches to PARKED with the state timer at 61, after
361 ticks it is still PARKED, and the 362nd tick (a further 301
seconds, elapsed 301 > 300) switches to IDLE with the state timer at
362; exactly one transition incremented the load-cycle estimate and no
activity-driven transition occurred. -/
theorem c8_no_activity_schedule :
    (wdAntiParkRun cfgDefault (initState cfgDefault 0)
        (noActInputs 0 60)).state = .AntiPark ∧
      (wdAntiParkRun cfgDefault (initState cfgDefault 0)
        (noActInputs 0 61)).state = .Parked ∧
      (wdAntiParkRun cfgDefault (initState cfgDefault 0)
        (noActInputs 0 61)).stateTimeBegin = 61 ∧
      (wdAntiParkRun cfgDefault (initState cfgDefault 0)
        (noActInputs 0 361)).state = .Parked ∧
      (wdAntiParkRun cfgDefault (initState cfgDefault 0)
        (noActInputs 0 362)).state = .Idle ∧
      (wdAntiParkRun cfgDefault (initState cfgDefault 0)
        (noActInputs 0 362)).stateTimeBegin = 362 ∧
      (wdAntiParkRun cfgDefault (initState cfgDefault 0)
        (noActInputs 0 362)).llc = 1 := by
  decide

/-- C9 counterexample: a non-transition tick that consumed exactly 0
microseconds skips the sleep entirely (the guard at line 374 uses a
strict comparison, which is false at equality), instead of sleeping
the full configured interval of 7 seconds as the claim requires. -/
theorem c9_counterexample :
    sleptMicros (tickSleepMicros 7 0) ≠ 7 * 1000000 - 0 := by
  decide

/-- C9 (amended): in PARKED or IDLE, a tick skips the end-of-tick
sleep exactly when it changed the controller state; and for every
interval in 0-3600 seconds, a tick that consumed loopMicros
microseconds with 0 < loopMicros < 2^32 sleeps for the interval minus
the tick duration, floored at zero.  A tick that consumed exactly 0
microseconds is the exception the counterexample exhibits: it skips
the sleep rather than sleeping the full interval. -/
theorem c9_tick_pacing :
    (∀ (cfg : WdAntiParkConfig) (s : LoopState) (now : Int)
        (hr hw : Bool) (r2 : Option (Nat × Nat)),
      s.state = .Parked ∨ s.state = .Idle →
        ((stepState cfg s now hr hw r2).2.skipSleep = true ↔
          (stepState cfg s now hr hw r2).1.state ≠ s.state)) ∧
    (∀ interval loopMicros : Int, 0 ≤ interval → interval ≤ 3600 →
      0 < loopMicros → loopMicros < 2 ^ 32 →
      sleptMicros (tickSleepMicros interval loopMicros) =
        max (interval * 1000000 - loopMicros) 0) := by
  constructor
  · intro cfg s now hr hw r2 hstate
    obtain ⟨st, tcb, stb, aps, i1, ls, lc, apt, lr, lw⟩ := s
    rcases hstate with h | h <;> dsimp only at h <;> subst h <;>
      rcases r2 with _ | ⟨a, b⟩ <;>
      simp [stepState, rebaselineActivity] <;> split_ifs <;> simp
  · intro interval loopMicros h1 h2 h3 h4
    simp only [tickSleepMicros]
    split_ifs with h <;> simp only [sleptMicros] <;> omega

/-- C9 witness: a PARKED interruption tick skips the sleep and changes
state, and a 7 second interval tick that took 1 microsecond sleeps for
6999999 microseconds. -/
theorem c9_witness :
    ((stepState cfgDefault (mkState .Parked 0 0 60) 5 true false
          none).2.skipSleep = true ↔
        (stepState cfgDefault (mkState .Parked 0 0 60) 5 true false
          none).1.state ≠ (mkState .Parked 0 0 60).state) ∧
      sleptMicros (tickSleepMicros 7 1) = max (7 * 1000000 - 1) 0 :=
  ⟨c9_tick_pacing.1 cfgDefault (mkState .Parked 0 0 60) 5 true false none
      (Or.inl rfl),
   c9_tick_pacing.2 7 1 (by decide) (by decide) (by decide) (by decide)⟩

/-- C10: a tick processed in the PARKED or IDLE state never opens or
writes the touch file; the touch action of lines 251-257 is reachable
only inside the ANTI-PARK case of the switch. -/
theorem c10_no_touch_outside_antipark (cfg : WdAntiParkConfig)
    (s : LoopState) (now : Int) (hr hw : Bool)
    (r2 : Option (Nat × Nat))
    (hstate : s.state = .Parked ∨ s.state = .Idle) :
    (stepState cfg s now hr hw r2).2.touched = false := by
  obtain ⟨st, tcb, stb, aps, i1, ls, lc, apt, lr, lw⟩ := s
  rcases hstate with h | h <;> dsimp only at h <;> subst h <;>
    rcases r2 with _ | ⟨a, b⟩ <;>
    simp [stepState, rebaselineActivity] <;> split_ifs <;> rfl

/-- C10 witness: a PARKED no-activity tick performs no touch. -/
theorem c10_witness :
    (stepState cfgDefault (mkState .Parked 0 0 60) 5 false false
        none).2.touched = false :=
  c10_no_touch_outside_antipark cfgDefault (mkState .Parked 0 0 60) 5
    false false none (Or.inl rfl)

end Wdantiparkd
